import Mathlib

/-!
Shallow embedding of the CashMaster currency sorting system.

The repository holds two Python scripts:
* Coin_data_script.py — the Coin Tally path: parses detection lines such as
  "COIN:5" or "Rs.100" from a serial channel and increments per-denomination
  counters (functions sanitize, update_coin_total, update_note_total,
  process_detection, is_valid_detection and the main monitoring loop).
* Main_script.py — the Sorting Control Loop: send_to_arduino, view_compartment,
  home_system, the detection_cycle state machine and the main input dispatcher.

Pure functions of the source become Lean functions; stateful code becomes
explicit state passing or a step relation; the serial channel becomes an
abstract stream of inbound lines observed at the poll quantum; real-valued
confidences become rationals.
-/

namespace CashMaster

/-! ### Python string primitives, modelled on character lists -/

/-- Python str.isdigit for ASCII digit strings: nonempty and all digits. -/
def pyIsDigitList (l : List Char) : Bool := !l.isEmpty && l.all Char.isDigit

/-- Integer value of a digit string, as read by Python int(...). -/
def digitsToNat (l : List Char) : Nat := l.foldl (fun n c => 10 * n + (c.toNat - 48)) 0

/-- Left-to-right removal of every non-overlapping occurrence of a pattern,
the semantics of Python s.replace(pat, "").  Fuel-structural so that concrete
inputs reduce; each step consumes at least one character, so fuel equal to the
length of the scanned list is always sufficient. -/
def removeAllAux (pat : List Char) : Nat → List Char → List Char
  | _, [] => []
  | 0, l => l
  | fuel + 1, c :: rest =>
    if !pat.isEmpty && pat.isPrefixOf (c :: rest) then
      removeAllAux pat fuel (List.drop pat.length (c :: rest))
    else
      c :: removeAllAux pat fuel rest

/-- Python s.replace(pat, "") on strings. -/
def pyReplaceEmpty (s pat : String) : String :=
  ⟨removeAllAux pat.toList s.toList.length s.toList⟩

/-- Python s.startswith(pat). -/
def pyStartsWith (s pat : String) : Bool := pat.toList.isPrefixOf s.toList

/-- Python s.strip(): drop whitespace from both ends. -/
def pyStrip (s : String) : String :=
  ⟨((s.toList.dropWhile Char.isWhitespace).reverse.dropWhile Char.isWhitespace).reverse⟩

/-- Does pat occur as a contiguous substring of the scanned list? -/
def listContainsSub (pat : List Char) : List Char → Bool
  | [] => pat.isEmpty
  | c :: rest => pat.isPrefixOf (c :: rest) || listContainsSub pat rest

/-- Python membership test pat in s. -/
def pyContains (s pat : String) : Bool := listContainsSub pat.toList s.toList

/-- Python value_str.isdigit() on strings. -/
def pyIsDigit (s : String) : Bool := pyIsDigitList s.toList

/-- Python int(value_str) for a digit string. -/
def pyToNat (s : String) : Nat := digitsToNat s.toList

/-! ### Coin_data_script.py: tally updates -/

/-- Firebase-safe path: replace every dot by an underscore (sanitize). -/
def sanitize (coin_name : String) : String :=
  ⟨coin_name.toList.map (fun c => if c = '.' then '_' else c)⟩

/-- The externally persisted counters, keyed by full Firebase path. -/
abbrev TallyStore := String → Option Nat

/-- update_coin_total: read the counter at coin_totals/Rs_v (default 0 when
absent) and write back current + 1. -/
def update_coin_total (store : TallyStore) (coin_value : Nat) : TallyStore :=
  let coin_type := "Rs." ++ toString coin_value
  let safe_type := sanitize coin_type
  let current := (store ("coin_totals/" ++ safe_type)).getD 0
  fun k => if k = "coin_totals/" ++ safe_type then some (current + 1) else store k

/-- update_note_total: read the counter at note_totals/Rs_v (default 0 when
absent) and write back current + 1. -/
def update_note_total (store : TallyStore) (note_value : Nat) : TallyStore :=
  let note_type := "Rs." ++ toString note_value
  let safe_type := sanitize note_type
  let current := (store ("note_totals/" ++ safe_type)).getD 0
  fun k => if k = "note_totals/" ++ safe_type then some (current + 1) else store k

/-- The Firebase key touched by update_coin_total for a given value. -/
def coinKey (coin_value : Nat) : String :=
  "coin_totals/" ++ sanitize ("Rs." ++ toString coin_value)

/-- The Firebase key touched by update_note_total for a given value. -/
def noteKey (note_value : Nat) : String :=
  "note_totals/" ++ sanitize ("Rs." ++ toString note_value)

/-! ### Coin_data_script.py: process_detection -/

/-- The observable effect of one process_detection call: which counter is
updated, or which diagnostic line is printed for the raw text. -/
inductive ParseEffect
  | coinDetected (value : Nat)
  | noteDetected (value : Nat)
  | legacyCoinDetected (value : Nat)
  | legacyNoteDetected (value : Nat)
  | invalidCoinFormat (raw : String)
  | unknownCoinValue (raw : String)
  | invalidNoteFormat (raw : String)
  | unknownNoteValue (raw : String)
  | invalidRsFormat (raw : String)
  | unknownRsValue (raw : String)
  | ignoring (raw : String)
deriving DecidableEq

/-- process_detection: strip the line, dispatch on the COIN:, NOTE:, Rs.
prefixes in that order; each branch removes every occurrence of its prefix
(Python str.replace), requires the rest to be a digit string, and checks the
denomination set. -/
def process_detection (detection_string0 : String) : ParseEffect :=
  let detection_string := pyStrip detection_string0
  if pyStartsWith detection_string "COIN:" then
    let value_str := pyReplaceEmpty detection_string "COIN:"
    if !pyIsDigit value_str then .invalidCoinFormat detection_string
    else
      let value := pyToNat value_str
      if [1, 2, 5, 10].contains value then .coinDetected value
      else .unknownCoinValue detection_string
  else if pyStartsWith detection_string "NOTE:" then
    let value_str := pyReplaceEmpty detection_string "NOTE:"
    if !pyIsDigit value_str then .invalidNoteFormat detection_string
    else
      let value := pyToNat value_str
      if [20, 50, 100, 500, 1000, 5000].contains value then .noteDetected value
      else .unknownNoteValue detection_string
  else if pyStartsWith detection_string "Rs." then
    let value_str := pyReplaceEmpty detection_string "Rs."
    if !pyIsDigit value_str then .invalidRsFormat detection_string
    else
      let value := pyToNat value_str
      if [1, 2, 5, 10].contains value then .legacyCoinDetected value
      else if [20, 50, 100, 500, 1000, 5000].contains value then .legacyNoteDetected value
      else .unknownRsValue detection_string
  else .ignoring detection_string

/-- The typed detection event of the Token Parser, read off the effect of
process_detection: counter-updating effects are Coin/Note tokens, every other
effect normalizes to Unrecognized carrying the raw line. -/
inductive DetectionToken
  | Coin (value : Nat)
  | Note (value : Nat)
  | Unrecognized (raw : String)
deriving DecidableEq

/-- The Token Parser as implemented: the token produced by process_detection. -/
def tokenOf (s : String) : DetectionToken :=
  match process_detection s with
  | .coinDetected v => .Coin v
  | .legacyCoinDetected v => .Coin v
  | .noteDetected v => .Note v
  | .legacyNoteDetected v => .Note v
  | _ => .Unrecognized s

/-- Spec-side remainder of a line: the text after stripping only the single
leading prefix (the wording of the spec, to compare with the replace-all
behaviour of the implementation). -/
def specRemainderAfter (s pat : String) : String := ⟨s.toList.drop pat.toList.length⟩

/-! ### Coin_data_script.py: is_valid_detection -/

/-- One branch of is_valid_detection: when the line carries the prefix and the
stripped rest is a digit string, the branch returns a verdict; otherwise the
Python code falls through to the next branch. -/
def validBranch (line pat : String) (denoms : List Nat) : Option Bool :=
  if pyStartsWith line pat then
    let value_part := pyStrip (pyReplaceEmpty line pat)
    if pyIsDigit value_part then some (denoms.contains (pyToNat value_part))
    else none
  else none

/-- is_valid_detection: empty lines are invalid; otherwise the COIN:, NOTE:,
Rs. branches are tried in order with fall-through, and a line that settles in
no branch is invalid. -/
def is_valid_detection (line : String) : Bool :=
  if line = "" then false
  else
    ((validBranch line "COIN:" [1, 2, 5, 10]).getD
      ((validBranch line "NOTE:" [20, 50, 100, 500, 1000, 5000]).getD
        ((validBranch line "Rs." [1, 2, 5, 10, 20, 50, 100, 500, 1000, 5000]).getD false)))

/-! ### Coin_data_script.py: monitoring loop body -/

/-- What the monitoring loop does with one decoded, stripped line. -/
inductive MonitorAction
  | processed (line : String) (effect : ParseEffect)
  | arduinoMessage (line : String)
  | debugChar (line : String)
  | debugShort (line : String)
  | dropped (line : String)
  | empty
deriving DecidableEq

/-- Does the line contain any of the three detection substrings
(the any(prefix in line ...) noise filter of the loop)? -/
def containsDetectionSub (line : String) : Bool :=
  pyContains line "COIN:" || pyContains line "NOTE:" || pyContains line "Rs."

/-- The body of the main monitoring loop for one inbound line: valid lines are
processed, and invalid lines are surfaced as an Arduino message or a debug
print according to length and the noise filter; a line that fits none of the
print guards produces no output at all. -/
def monitor_line (line : String) : MonitorAction :=
  if line = "" then .empty
  else if is_valid_detection line then .processed line (process_detection line)
  else if 3 < line.length ∧ containsDetectionSub line = false then .arduinoMessage line
  else if line.length = 1 then .debugChar line
  else if 1 < line.length ∧ line.length ≤ 3 then .debugShort line
  else .dropped line

/-! ### Main_script.py: actuator link (send_to_arduino, view_compartment, home_system) -/

/-- An operation performed on the serial channel, recorded for observability:
the write of the command line, each inbound line read and surfaced, and any
attempt to (re)open the connection. -/
inductive SerialOp
  | write (line : String)
  | readLine (line : String)
  | reconnectAttempt
deriving DecidableEq

/-- Classification of one inbound response line. -/
inductive RespClass
  | done
  | error
  | other
deriving DecidableEq

/-- Result of one command send over the actuator link. -/
inductive SendOutcome
  | noConnection
  | completed
  | reportedError
  | timedOut
  | commFailure
  | refusedBusy
deriving DecidableEq

/-- The abstract serial endpoint: whether writing raises a transport error,
and the inbound line (if any) available at each 0.1 s poll tick. -/
structure ArduinoLink where
  writeRaises : Bool
  inbound : Nat → Option String

/-- Response classification of the sorting wait loop: DONE or the ready banner
terminate with success, ERROR terminates with failure, anything else is
unrecognized. -/
def classify_response (resp : String) : RespClass :=
  if pyContains resp "DONE" || pyContains resp "Ready. Enter note value:" then .done
  else if pyContains resp "ERROR" then .error
  else .other

/-- Response classification of the view_compartment wait loop. -/
def classify_view_response (resp : String) : RespClass :=
  if pyContains resp "COMPARTMENT_VIEW_DONE" then .done
  else if pyContains resp "ERROR" then .error
  else .other

/-- Response classification of the home_system wait loop. -/
def classify_home_response (resp : String) : RespClass :=
  if pyContains resp "HOME_DONE" then .done
  else if pyContains resp "ERROR" then .error
  else .other

/-- 120 s sorting deadline at the 0.1 s poll quantum. -/
def SORT_TIMEOUT_POLLS : Nat := 120 * 10

/-- 60 s view/home deadline at the 0.1 s poll quantum. -/
def VIEW_TIMEOUT_POLLS : Nat := 60 * 10

/-- The response wait loop shared by the three commands: at each tick before
the deadline, read the available line (if any), surface it, and classify;
polling stops on done or error and otherwise continues to the next tick; an
exhausted deadline is a timeout. -/
def pollForResponse (classify : String → RespClass) (inbound : Nat → Option String) :
    Nat → Nat → SendOutcome × List SerialOp
  | 0, _ => (.timedOut, [])
  | fuel + 1, i =>
    match inbound i with
    | none => pollForResponse classify inbound fuel (i + 1)
    | some resp =>
      match classify resp with
      | .done => (.completed, [.readLine resp])
      | .error => (.reportedError, [.readLine resp])
      | .other =>
        let r := pollForResponse classify inbound fuel (i + 1)
        (r.1, .readLine resp :: r.2)

/-- send_to_arduino: fail fast with no connection; on a transport write error
the exception handler reports failure at once (it performs no serial
operation); otherwise write the value and wait up to 120 s for a terminal
response. -/
def send_to_arduino (link : Option ArduinoLink) (note_value : String) :
    SendOutcome × List SerialOp :=
  match link with
  | none => (.noConnection, [])
  | some l =>
    if l.writeRaises then (.commFailure, [])
    else
      let r := pollForResponse classify_response l.inbound SORT_TIMEOUT_POLLS 0
      (r.1, .write note_value :: r.2)

/-- view_compartment: refuse while sorting is in progress, then behave like a
send of VIEW_COMPARTMENT with a 60 s deadline. -/
def view_compartment (sorting_in_progress : Bool) (link : Option ArduinoLink) :
    SendOutcome × List SerialOp :=
  if sorting_in_progress then (.refusedBusy, [])
  else
    match link with
    | none => (.noConnection, [])
    | some l =>
      if l.writeRaises then (.commFailure, [])
      else
        let r := pollForResponse classify_view_response l.inbound VIEW_TIMEOUT_POLLS 0
        (r.1, .write "VIEW_COMPARTMENT" :: r.2)

/-- home_system: a send of HOME with a 60 s deadline. -/
def home_system (link : Option ArduinoLink) : SendOutcome × List SerialOp :=
  match link with
  | none => (.noConnection, [])
  | some l =>
    if l.writeRaises then (.commFailure, [])
    else
      let r := pollForResponse classify_home_response l.inbound VIEW_TIMEOUT_POLLS 0
      (r.1, .write "HOME" :: r.2)

/-- All inbound lines available during a poll window, in arrival order. -/
def inboundWindow (inbound : Nat → Option String) : Nat → Nat → List String
  | 0, _ => []
  | fuel + 1, i =>
    match inbound i with
    | none => inboundWindow inbound fuel (i + 1)
    | some r => r :: inboundWindow inbound fuel (i + 1)

/-! ### Main_script.py: decision policy and detection_cycle -/

/-- The action derived from one classification result. -/
inductive Action
  | Proceed (label : String)
  | Pause (label : String)
  | Reject (label : String)
  | Stop (reason : String)
deriving DecidableEq

/-- The confidence-gated branch structure of detection_cycle: sentinel labels
stop the cycle, confidence below 0.60 rejects, confidence in [0.60, 0.7199)
pauses for adjustment, and everything else proceeds with sorting. -/
def decisionPolicy (label : String) (confidence : ℚ) : Action :=
  if label = "no_note" ∨ label = "invalid_object" then
    if label = "no_note" then .Stop "cycle_complete" else .Stop "safety"
  else if confidence < mkRat 60 100 then .Reject label
  else if mkRat 60 100 ≤ confidence ∧ confidence < mkRat 7199 10000 then .Pause label
  else .Proceed label

/-- An externally observable action of one detection_cycle iteration: a
telemetry push to Firebase or a command write to the sorting Arduino. -/
inductive Event
  | firebase (value : String) (confidence : ℚ) (status : String)
  | arduino (command : String)
deriving DecidableEq

/-- Whether the iteration falls through to another capture or breaks out of
the while loop. -/
inductive IterOutcome
  | nextIteration
  | cycleBreak
deriving DecidableEq

/-- The environment of one iteration: the capture/classification outcome
(none models a failed capture), whether the operator confirms the pause
prompt (false models the KeyboardInterrupt), and whether the two Arduino
sends report success. -/
structure CycleInput where
  capture : Option (String × ℚ)
  pauseConfirmed : Bool
  sortSucceeds : Bool
  noNoteSendSucceeds : Bool

/-- One iteration of the detection_cycle while loop, transcribing its branch
chain: failed capture continues; no_note emits sorting_complete telemetry,
sends NO_NOTE and breaks; invalid_object emits safety telemetry and breaks;
low confidence emits low_confidence_invalid and breaks; medium confidence
waits for the operator and either emits medium_confidence_adjusted and
continues, or breaks on interrupt; high confidence emits sorting_started,
sends the label, and continues on success (sorting_completed) or breaks on
failure (sorting_failed). -/
def cycleIteration (inp : CycleInput) : IterOutcome × List Event :=
  match inp.capture with
  | none => (.nextIteration, [])
  | some ( predicted_class, confidence) =>
    if predicted_class = "no_note" ∨ predicted_class = "invalid_object" then
      if predicted_class = "no_note" then
        (.cycleBreak,
         [.firebase "no_note" confidence "sorting_complete", .arduino "NO_NOTE"])
      else
        (.cycleBreak, [.firebase "invalid_object" confidence "invalid_object_detected"])
    else if confidence < mkRat 60 100 then
      (.cycleBreak, [.firebase predicted_class confidence "low_confidence_invalid"])
    else if mkRat 60 100 ≤ confidence ∧ confidence < mkRat 7199 10000 then
      if inp.pauseConfirmed then
        (.nextIteration, [.firebase predicted_class confidence "medium_confidence_adjusted"])
      else
        (.cycleBreak, [])
    else
      if inp.sortSucceeds then
        (.nextIteration,
         [.firebase predicted_class confidence "sorting_started",
          .arduino predicted_class,
          .firebase predicted_class confidence "sorting_completed"])
      else
        (.cycleBreak,
         [.firebase predicted_class confidence "sorting_started",
          .arduino predicted_class,
          .firebase predicted_class confidence "sorting_failed"])

/-- The while loop of detection_cycle over a finite trace of iteration
environments: some evs when an iteration breaks out with the accumulated
events, none when the trace is exhausted with the loop still running. -/
def runCycle : List CycleInput → Option (List Event)
  | [] => none
  | inp :: rest =>
    match cycleIteration inp with
    | (.cycleBreak, evs) => some evs
    | (.nextIteration, evs) => (runCycle rest).map (fun more => evs ++ more)

/-- The cross-component state shared with the input dispatcher. -/
structure SystemFlags where
  sorting_in_progress : Bool
deriving DecidableEq

/-- detection_cycle: sets sorting_in_progress on entry, runs the loop, and on
every break path executes the trailing lines that clear the flag before
returning control; the returned flags are those the dispatcher observes. -/
def detection_cycle (inputs : List CycleInput) : Option (SystemFlags × List Event) :=
  (runCycle inputs).map (fun evs => (⟨false⟩, evs))



/-! ### Main_script.py: input dispatcher and cycle controller as a transition
system.  The main loop polls for one intent per tick while idle; a start
intent enters detection_cycle, which sets sorting_in_progress at entry, may
pause for operator confirmation, and clears the flag on every exit path
before control returns to the dispatcher. -/

/-- Where control currently sits in the single-threaded process. -/
inductive Phase
  | dispatching
  | running
  | paused
deriving DecidableEq

/-- An operator intent delivered by a dispatcher poll. -/
inductive Intent
  | start
  | view
  | home
  | invalid
deriving DecidableEq

/-- The cross-component state: control location and the shared flag. -/
structure MState where
  phase : Phase
  sorting_in_progress : Bool
deriving DecidableEq

/-- One step of the system.  Intents are only delivered at dispatcher polls
(the process is single-threaded); steps inside a cycle carry no intent. -/
inductive Step : MState → Option Intent → MState → Prop
  | acceptStart (f : Bool) :
      Step ⟨.dispatching, f⟩ (some .start) ⟨.running, true⟩
  | dispatchView (f : Bool) :
      Step ⟨.dispatching, f⟩ (some .view) ⟨.dispatching, f⟩
  | dispatchHome (f : Bool) :
      Step ⟨.dispatching, f⟩ (some .home) ⟨.dispatching, f⟩
  | dispatchInvalid (f : Bool) :
      Step ⟨.dispatching, f⟩ (some .invalid) ⟨.dispatching, f⟩
  | idleTick (f : Bool) :
      Step ⟨.dispatching, f⟩ none ⟨.dispatching, f⟩
  | iterContinue (f : Bool) :
      Step ⟨.running, f⟩ none ⟨.running, f⟩
  | iterPause (f : Bool) :
      Step ⟨.running, f⟩ none ⟨.paused, f⟩
  | pauseConfirm (f : Bool) :
      Step ⟨.paused, f⟩ none ⟨.running, f⟩
  | pauseInterrupt (f : Bool) :
      Step ⟨.paused, f⟩ none ⟨.dispatching, false⟩
  | iterTerminate (f : Bool) :
      Step ⟨.running, f⟩ none ⟨.dispatching, false⟩

/-- States reachable from process start (idle dispatcher, flag clear). -/
inductive Reachable : MState → Prop
  | init : Reachable ⟨.dispatching, false⟩
  | step {s l s'} : Reachable s → Step s l s' → Reachable s'

/-- The mutual-exclusion invariant: the flag is clear exactly at dispatcher
polls, and set throughout a running or paused cycle. -/
theorem reachable_flag_invariant {s : MState} (h : Reachable s) :
    (s.phase = Phase.dispatching → s.sorting_in_progress = false) ∧
    (s.phase ≠ Phase.dispatching → s.sorting_in_progress = true) := by
  induction h with
  | init => exact ⟨fun _ => rfl, fun h => absurd rfl h⟩
  | step _ hstep ih =>
    cases hstep with
    | acceptStart f => exact ⟨(fun h => nomatch h), fun _ => rfl⟩
    | dispatchView f => exact ih
    | dispatchHome f => exact ih
    | dispatchInvalid f => exact ih
    | idleTick f => exact ih
    | iterContinue f => exact ⟨(fun h => nomatch h), fun _ => ih.2 (fun h => nomatch h)⟩
    | iterPause f => exact ⟨(fun h => nomatch h), fun _ => ih.2 (fun h => nomatch h)⟩
    | pauseConfirm f => exact ⟨(fun h => nomatch h), fun _ => ih.2 (fun h => nomatch h)⟩
    | pauseInterrupt f => exact ⟨fun _ => rfl, fun h => absurd rfl h⟩
    | iterTerminate f => exact ⟨fun _ => rfl, fun h => absurd rfl h⟩

/-! ### Helper lemmas about the response wait loop -/

/-- The wait loop performs only reads: its trace never holds a reconnect
attempt, whatever the classifier, stream, fuel and start index. -/
theorem pollForResponse_count_reconnect (classify : String → RespClass)
    (inbound : Nat → Option String) :
    ∀ fuel i,
      (pollForResponse classify inbound fuel i).2.count SerialOp.reconnectAttempt = 0 := by
  intro fuel
  induction fuel with
  | zero => intro i; rfl
  | succ n ih =>
    intro i
    cases hx : inbound i with
    | none =>
      simp only [pollForResponse, hx]
      exact ih (i + 1)
    | some resp =>
      cases hc : classify resp with
      | done => simp [pollForResponse, hx, hc, List.count_cons]
      | error => simp [pollForResponse, hx, hc, List.count_cons]
      | other => simp [pollForResponse, hx, hc, List.count_cons, ih (i + 1)]

/-- When every inbound line is unrecognized, polling never stops early: the
wait loop runs its whole window, surfaces every line, and times out. -/
theorem pollForResponse_all_other (classify : String → RespClass)
    (inbound : Nat → Option String)
    (h : ∀ j r, inbound j = some r → classify r = RespClass.other) :
    ∀ fuel i,
      pollForResponse classify inbound fuel i =
        (SendOutcome.timedOut, (inboundWindow inbound fuel i).map SerialOp.readLine) := by
  intro fuel
  induction fuel with
  | zero => intro i; rfl
  | succ n ih =>
    intro i
    cases hx : inbound i with
    | none =>
      simp only [pollForResponse, inboundWindow, hx]
      exact ih (i + 1)
    | some resp =>
      simp only [pollForResponse, inboundWindow, hx, h i resp hx, ih (i + 1),
        List.map_cons]

/-! ### Claim theorems -/

/-- C1 (counterexample): the claim routes confidence 0.7199 to Pause, but the
Proceed test of detection_cycle is the failure of confidence < 0.7199, so
confidence exactly 0.7199 with the non-sentinel label 100 yields Proceed. -/
theorem C1_counterexample :
    decisionPolicy "100" (mkRat 7199 10000) = Action.Proceed "100" ∧
    decisionPolicy "100" (mkRat 7199 10000) ≠ Action.Pause "100" := by
  decide

/-- C1 (amended): for every non-sentinel label the boundaries route as the
code does: 0.60 to Pause, 0.5999999 to Reject, 0.7199 to Proceed (the Pause
guard confidence < 0.7199 is strict), 0.72 to Proceed. -/
theorem C1_boundary_routing (label : String)
    (h1 : label ≠ "no_note") (h2 : label ≠ "invalid_object") :
    decisionPolicy label (mkRat 60 100) = Action.Pause label ∧
    decisionPolicy label (mkRat 5999999 10000000) = Action.Reject label ∧
    decisionPolicy label (mkRat 7199 10000) = Action.Proceed label ∧
    decisionPolicy label (mkRat 72 100) = Action.Proceed label := by
  refine ⟨?_, ?_, ?_, ?_⟩
  · unfold decisionPolicy
    rw [if_neg (fun hc => hc.elim h1 h2), if_neg (by decide), if_pos (by decide)]
  · unfold decisionPolicy
    rw [if_neg (fun hc => hc.elim h1 h2), if_pos (by decide)]
  · unfold decisionPolicy
    rw [if_neg (fun hc => hc.elim h1 h2), if_neg (by decide), if_neg (by decide)]
  · unfold decisionPolicy
    rw [if_neg (fun hc => hc.elim h1 h2), if_neg (by decide), if_neg (by decide)]

/-- C1 (witness): the amended routing evaluated at the concrete label 100. -/
theorem C1_boundary_routing_witness :
    ("100" ≠ "no_note") ∧
    decisionPolicy "100" (mkRat 7199 10000) = Action.Proceed "100" :=
  ⟨by decide, (C1_boundary_routing "100" (by decide) (by decide)).2.2.1⟩

/-- C2: a no_note classification during Running, at every confidence, never
yields Proceed: the iteration emits sorting_complete telemetry, sends the
NO_NOTE actuator command, breaks out of the loop, and detection_cycle returns
with sorting_in_progress cleared. -/
theorem C2_no_note_stop (confidence : ℚ) (pc ss ns : Bool) :
    cycleIteration ⟨some ("no_note", confidence), pc, ss, ns⟩ =
      (IterOutcome.cycleBreak,
       [Event.firebase "no_note" confidence "sorting_complete", Event.arduino "NO_NOTE"]) ∧
    detection_cycle [⟨some ("no_note", confidence), pc, ss, ns⟩] =
      some (⟨false⟩,
       [Event.firebase "no_note" confidence "sorting_complete", Event.arduino "NO_NOTE"]) ∧
    (∀ label, decisionPolicy "no_note" confidence ≠ Action.Proceed label) :=
  ⟨rfl, rfl, fun _ h => nomatch h⟩

/-- C2 (witness): the no_note stop evaluated at confidence 0.99. -/
theorem C2_no_note_stop_witness :
    cycleIteration ⟨some ("no_note", mkRat 99 100), true, true, true⟩ =
      (IterOutcome.cycleBreak,
       [Event.firebase "no_note" (mkRat 99 100) "sorting_complete",
        Event.arduino "NO_NOTE"]) :=
  (C2_no_note_stop (mkRat 99 100) true true true).1

/-- C3 (counterexample): on a transport write failure the exception handler of
send_to_arduino reports the failure immediately; its serial trace holds zero
reconnect attempts, not the exactly one the claim requires. -/
theorem C3_counterexample :
    (send_to_arduino (some ⟨true, fun _ => none⟩) "100").1 = SendOutcome.commFailure ∧
    (send_to_arduino (some ⟨true, fun _ => none⟩) "100").2.count
      SerialOp.reconnectAttempt = 0 ∧
    (send_to_arduino (some ⟨true, fun _ => none⟩) "100").2.count
      SerialOp.reconnectAttempt ≠ 1 := by
  decide

/-- C3 (amended): a transport I/O failure during a send is reported
immediately with an empty serial trace, and no send_to_arduino call ever
performs a reconnect attempt: the reconnect count of its trace is always 0. -/
theorem C3_no_reconnect (link : Option ArduinoLink) (note_value : String) :
    (send_to_arduino link note_value).2.count SerialOp.reconnectAttempt = 0 ∧
    ∀ inbound : Nat → Option String,
      send_to_arduino (some ⟨true, inbound⟩) note_value =
        (SendOutcome.commFailure, []) := by
  refine ⟨?_, fun _ => rfl⟩
  cases link with
  | none => rfl
  | some l =>
    cases l with
    | mk wr ib =>
      cases wr with
      | true => rfl
      | false =>
        simp only [send_to_arduino]
        simp [List.count_cons, pollForResponse_count_reconnect]

/-- C4 (counterexample): the line COIN:3 fails parsing (3 is not a coin
denomination), yet the monitoring loop surfaces nothing for it: the line is
longer than 3 characters and contains the COIN: substring, so every print
guard fails and the line is silently dropped. -/
theorem C4_counterexample :
    is_valid_detection "COIN:3" = false ∧
    monitor_line "COIN:3" = MonitorAction.dropped "COIN:3" := by
  decide

/-- C4 (amended): a nonempty line that fails validation is surfaced as an
Arduino message or a debug print in every case except one: a line longer than
3 characters that contains one of the detection substrings is silently
dropped. -/
theorem C4_surfacing (line : String) (hne : line ≠ "")
    (hinv : is_valid_detection line = false) :
    (3 < line.length ∧ containsDetectionSub line = false →
      monitor_line line = MonitorAction.arduinoMessage line) ∧
    (line.length = 1 → monitor_line line = MonitorAction.debugChar line) ∧
    (1 < line.length ∧ line.length ≤ 3 →
      monitor_line line = MonitorAction.debugShort line) ∧
    (3 < line.length ∧ containsDetectionSub line = true →
      monitor_line line = MonitorAction.dropped line) := by
  refine ⟨?_, ?_, ?_, ?_⟩
  · rintro ⟨hl, hcs⟩
    unfold monitor_line
    rw [if_neg hne, if_neg (by simp [hinv]), if_pos ⟨hl, hcs⟩]
  · intro hl
    unfold monitor_line
    rw [if_neg hne, if_neg (by simp [hinv]), if_neg (by rintro ⟨h3, _⟩; omega),
      if_pos hl]
  · rintro ⟨hgt, hle⟩
    unfold monitor_line
    rw [if_neg hne, if_neg (by simp [hinv]), if_neg (by rintro ⟨h3, _⟩; omega),
      if_neg (by omega), if_pos ⟨hgt, hle⟩]
  · rintro ⟨hl, hcs⟩
    unfold monitor_line
    rw [if_neg hne, if_neg (by simp [hinv]),
      if_neg (by rintro ⟨_, hf⟩; exact Bool.noConfusion (hcs.symm.trans hf)),
      if_neg (by omega), if_neg (by rintro ⟨_, hle⟩; omega)]

/-- C4 (witness): a failing line without a detection substring is surfaced. -/
theorem C4_surfacing_witness :
    monitor_line "hello world" = MonitorAction.arduinoMessage "hello world" :=
  (C4_surfacing "hello world" (by decide) (by decide)).1 ⟨by decide, by decide⟩

/-- C5 (counterexample): COIN:5COIN: starts with COIN: and its remainder after
that prefix, 5COIN:, is not an all-digit string, so the claim demands
Unrecognized; the parser instead removes every occurrence of COIN: (Python
str.replace) leaving the digit 5 and accepts the line as Coin 5. -/
theorem C5_counterexample :
    pyStartsWith "COIN:5COIN:" "COIN:" = true ∧
    pyIsDigit (specRemainderAfter "COIN:5COIN:" "COIN:") = false ∧
    tokenOf "COIN:5COIN:" = DetectionToken.Coin 5 ∧
    tokenOf "COIN:5COIN:" ≠ DetectionToken.Unrecognized "COIN:5COIN:" := by
  decide

/-- C5 (amended): the parser recognizes exactly the prefixes COIN:, NOTE:,
Rs. in that priority order, removes every occurrence of the matched prefix
(Python replace, not a single leading strip), requires the remaining text to
be an all-digit string, and checks the denomination set; the four round-trip
examples hold, a line matching no prefix is Unrecognized, and a line whose
text after the removal is not all digits is Unrecognized. -/
theorem C5_token_parsing :
    tokenOf "COIN:5" = DetectionToken.Coin 5 ∧
    tokenOf "COIN:3" = DetectionToken.Unrecognized "COIN:3" ∧
    tokenOf "Rs.100" = DetectionToken.Note 100 ∧
    tokenOf "NOTE:7" = DetectionToken.Unrecognized "NOTE:7" ∧
    (∀ s : String,
      pyStartsWith (pyStrip s) "COIN:" = false →
      pyStartsWith (pyStrip s) "NOTE:" = false →
      pyStartsWith (pyStrip s) "Rs." = false →
      tokenOf s = DetectionToken.Unrecognized s) ∧
    (∀ s : String,
      pyStartsWith (pyStrip s) "COIN:" = true →
      pyIsDigit (pyReplaceEmpty (pyStrip s) "COIN:") = false →
      tokenOf s = DetectionToken.Unrecognized s) ∧
    (∀ s : String,
      pyStartsWith (pyStrip s) "COIN:" = false →
      pyStartsWith (pyStrip s) "NOTE:" = true →
      pyIsDigit (pyReplaceEmpty (pyStrip s) "NOTE:") = false →
      tokenOf s = DetectionToken.Unrecognized s) ∧
    (∀ s : String,
      pyStartsWith (pyStrip s) "COIN:" = false →
      pyStartsWith (pyStrip s) "NOTE:" = false →
      pyStartsWith (pyStrip s) "Rs." = true →
      pyIsDigit (pyReplaceEmpty (pyStrip s) "Rs.") = false →
      tokenOf s = DetectionToken.Unrecognized s) := by
  refine ⟨by decide, by decide, by decide, by decide, ?_, ?_, ?_, ?_⟩
  · intro s h1 h2 h3
    simp [tokenOf, process_detection, h1, h2, h3]
  · intro s h1 h2
    simp [tokenOf, process_detection, h1, h2]
  · intro s h1 h2 h3
    simp [tokenOf, process_detection, h1, h2, h3]
  · intro s h1 h2 h3 h4
    simp [tokenOf, process_detection, h1, h2, h3, h4]

/-- C5 (witness): the non-digit-remainder clause evaluated at COIN:x. -/
theorem C5_token_parsing_witness :
    tokenOf "COIN:x" = DetectionToken.Unrecognized "COIN:x" :=
  C5_token_parsing.2.2.2.2.2.1 "COIN:x" (by decide) (by decide)

/-- C6: on every path by which detection_cycle terminates and returns control
to the dispatcher, the returned sorting_in_progress flag is false. -/
theorem C6_flag_cleared (inputs : List CycleInput) (flags : SystemFlags)
    (evs : List Event) (h : detection_cycle inputs = some (flags, evs)) :
    flags.sorting_in_progress = false := by
  unfold detection_cycle at h
  rcases Option.map_eq_some'.mp h with ⟨e, _, heq⟩
  cases heq
  rfl

/-- C6 (witness): the flag is clear after the pause-interrupt break path. -/
theorem C6_flag_cleared_witness :
    detection_cycle [⟨some ("100", mkRat 65 100), false, true, true⟩] =
      some (⟨false⟩, []) ∧
    (⟨false⟩ : SystemFlags).sorting_in_progress = false :=
  ⟨by decide,
   C6_flag_cleared [⟨some ("100", mkRat 65 100), false, true, true⟩] ⟨false⟩ []
     (by decide)⟩

/-- C7: in every reachable state of the dispatcher plus cycle system, an
intent (in particular start) can only be received while sorting_in_progress
is false, so a start while the flag is set never launches a second concurrent
cycle; and the flag stays true throughout a running or paused cycle. -/
theorem C7_mutual_exclusion {s : MState} (h : Reachable s) :
    (s.sorting_in_progress = true → ∀ i s', ¬ Step s (some i) s') ∧
    (s.phase ≠ Phase.dispatching → s.sorting_in_progress = true) := by
  refine ⟨?_, (reachable_flag_invariant h).2⟩
  intro hflag i s' hstep
  cases hstep with
  | acceptStart f =>
    exact Bool.noConfusion (((reachable_flag_invariant h).1 rfl).symm.trans hflag)
  | dispatchView f =>
    exact Bool.noConfusion (((reachable_flag_invariant h).1 rfl).symm.trans hflag)
  | dispatchHome f =>
    exact Bool.noConfusion (((reachable_flag_invariant h).1 rfl).symm.trans hflag)
  | dispatchInvalid f =>
    exact Bool.noConfusion (((reachable_flag_invariant h).1 rfl).symm.trans hflag)

/-- C7 (witness): the state just after start acceptance is reachable, carries
the flag, and admits no further intent delivery. -/
theorem C7_mutual_exclusion_witness :
    Reachable ⟨Phase.running, true⟩ ∧
    (∀ i s', ¬ Step (⟨Phase.running, true⟩ : MState) (some i) s') :=
  have hr : Reachable ⟨Phase.running, true⟩ :=
    Reachable.step Reachable.init (Step.acceptStart false)
  ⟨hr, (C7_mutual_exclusion hr).1 rfl⟩

/-- C8: when every inbound line is unrecognized (no terminal Done or Error
response), each command send returns Timeout at its deadline window (1200
polls of 0.1 s for sorting, 600 for view and home) instead of blocking, and
every inbound line is surfaced while polling continues. -/
theorem C8_timeout (inbound : Nat → Option String) (note_value : String)
    (h : ∀ j r, inbound j = some r →
      classify_response r = RespClass.other ∧
      classify_view_response r = RespClass.other ∧
      classify_home_response r = RespClass.other) :
    send_to_arduino (some ⟨false, inbound⟩) note_value =
      (SendOutcome.timedOut,
       SerialOp.write note_value ::
         (inboundWindow inbound SORT_TIMEOUT_POLLS 0).map SerialOp.readLine) ∧
    view_compartment false (some ⟨false, inbound⟩) =
      (SendOutcome.timedOut,
       SerialOp.write "VIEW_COMPARTMENT" ::
         (inboundWindow inbound VIEW_TIMEOUT_POLLS 0).map SerialOp.readLine) ∧
    home_system (some ⟨false, inbound⟩) =
      (SendOutcome.timedOut,
       SerialOp.write "HOME" ::
         (inboundWindow inbound VIEW_TIMEOUT_POLLS 0).map SerialOp.readLine) := by
  refine ⟨?_, ?_, ?_⟩
  · simp only [send_to_arduino]
    rw [pollForResponse_all_other classify_response inbound
      (fun j r hjr => (h j r hjr).1)]
    rfl
  · simp only [view_compartment]
    rw [pollForResponse_all_other classify_view_response inbound
      (fun j r hjr => (h j r hjr).2.1)]
    rfl
  · simp only [home_system]
    rw [pollForResponse_all_other classify_home_response inbound
      (fun j r hjr => (h j r hjr).2.2)]
    rfl

/-- C8 (witness): a link that never replies makes the sorting send time out. -/
theorem C8_timeout_witness :
    send_to_arduino (some ⟨false, fun _ => none⟩) "100" =
      (SendOutcome.timedOut,
       SerialOp.write "100" ::
         (inboundWindow (fun _ => none) SORT_TIMEOUT_POLLS 0).map SerialOp.readLine) :=
  (C8_timeout (fun _ => none) "100" (fun _ _ hjr => nomatch hjr)).1

/-- C9: each valid token bumps its per-denomination counter by exactly one,
reading the current value with default 0 when the key is absent; from an
absent key one Coin(1) yields 1 and a second yields 2; and no update ever
decreases any counter. -/
theorem C9_tally_increment (store : TallyStore) (coin_value note_value : Nat) :
    (update_coin_total store coin_value) (coinKey coin_value) =
      some ((store (coinKey coin_value)).getD 0 + 1) ∧
    (update_note_total store note_value) (noteKey note_value) =
      some ((store (noteKey note_value)).getD 0 + 1) ∧
    (store (coinKey 1) = none →
      (update_coin_total store 1) (coinKey 1) = some 1 ∧
      (update_coin_total (update_coin_total store 1) 1) (coinKey 1) = some 2) ∧
    (∀ k, (store k).getD 0 ≤ ((update_coin_total store coin_value) k).getD 0) ∧
    (∀ k, (store k).getD 0 ≤ ((update_note_total store note_value) k).getD 0) := by
  refine ⟨?_, ?_, ?_, ?_, ?_⟩
  · simp [update_coin_total, coinKey]
  · simp [update_note_total, noteKey]
  · intro habs
    have habs2 : store ("coin_totals/" ++ sanitize ("Rs." ++ toString 1)) = none := habs
    constructor
    · simp [update_coin_total, coinKey, habs2]
    · simp [update_coin_total, coinKey, habs2]
  · intro k
    by_cases hk : k = coinKey coin_value
    · subst hk
      simp [update_coin_total, coinKey]
    · simp [update_coin_total, coinKey] at hk ⊢
      rw [if_neg hk]
  · intro k
    by_cases hk : k = noteKey note_value
    · subst hk
      simp [update_note_total, noteKey]
    · simp [update_note_total, noteKey] at hk ⊢
      rw [if_neg hk]

/-- C9 (witness): the absent-key scenario evaluated at the empty store. -/
theorem C9_tally_increment_witness :
    (update_coin_total (fun _ => none) 1) (coinKey 1) = some 1 ∧
    (update_coin_total (update_coin_total (fun _ => none) 1) 1) (coinKey 1) =
      some 2 :=
  (C9_tally_increment (fun _ => none) 1 1).2.2.1 rfl

/-- C10: a confirmed pause sends no actuator command for the paused label: the
iteration emits only the medium_confidence_adjusted telemetry (no arduino
event), continues, and the loop moves on to a fresh capture and
classification. -/
theorem C10_pause_no_actuator (label : String) (confidence : ℚ) (ss ns : Bool)
    (h1 : label ≠ "no_note") (h2 : label ≠ "invalid_object")
    (h3 : mkRat 60 100 ≤ confidence) (h4 : confidence < mkRat 7199 10000)
    (rest : List CycleInput) :
    cycleIteration ⟨some (label, confidence), true, ss, ns⟩ =
      (IterOutcome.nextIteration,
       [Event.firebase label confidence "medium_confidence_adjusted"]) ∧
    (∀ cmd, Event.arduino cmd ∉
      [Event.firebase label confidence "medium_confidence_adjusted"]) ∧
    runCycle (⟨some (label, confidence), true, ss, ns⟩ :: rest) =
      (runCycle rest).map
        (fun more =>
          Event.firebase label confidence "medium_confidence_adjusted" :: more) := by
  have hiter :
      cycleIteration ⟨some (label, confidence), true, ss, ns⟩ =
        (IterOutcome.nextIteration,
         [Event.firebase label confidence "medium_confidence_adjusted"]) := by
    unfold cycleIteration
    dsimp only
    rw [if_neg (fun hc => hc.elim h1 h2), if_neg (not_lt.mpr h3), if_pos ⟨h3, h4⟩]
    rfl
  refine ⟨hiter, ?_, ?_⟩
  · intro cmd hmem
    simp at hmem
  · simp only [runCycle, hiter]
    rfl

/-- C10 (witness): the confirmed pause evaluated at label 100, confidence
0.65. -/
theorem C10_pause_no_actuator_witness :
    cycleIteration ⟨some ("100", mkRat 65 100), true, true, true⟩ =
      (IterOutcome.nextIteration,
       [Event.firebase "100" (mkRat 65 100) "medium_confidence_adjusted"]) :=
  (C10_pause_no_actuator "100" (mkRat 65 100) true true (by decide) (by decide)
    (by decide) (by decide) []).1

end CashMaster
